import Mathlib

/-!
Verification of the Azure DevOps sprint-manager backend (TypeScript sources)
against its natural-language specification.  The TypeScript modules are given
a shallow embedding: pure computations become Lean functions, each outbound
HTTP interaction is modelled by an explicit environment record supplying the
remote responses, and a trace of issued remote calls is returned where a
claim speaks about which calls are made.  JavaScript numbers that the claims
use only for counting and summing are modelled as `Int`; JSON values are
modelled by the inductive type `Json` below, with numeric literals kept as
their lexemes (the claims never inspect numeric values).
-/

namespace SprintMgr

/-- JSON values as produced by `JSON.parse`.  Number literals are kept as
their source lexeme, object members in source order. -/
inductive Json where
  | null
  | bool (b : Bool)
  | num (lexeme : String)
  | str (value : String)
  | arr (items : List Json)
  | obj (pairs : List (String × Json))

/-- JavaScript string truthiness for an optional string field:
`undefined` and the empty string are falsy. -/
def jsTruthyStr : Option String → Bool
  | none => false
  | some s => !(s == "")

/-- JSON whitespace accepted by `JSON.parse` (space, tab, line feed,
carriage return, by code point). -/
def isJsonWs (c : Char) : Bool :=
  c.toNat == 32 || c.toNat == 9 || c.toNat == 10 || c.toNat == 13

/-- Drop leading JSON whitespace. -/
def skipWs (cs : List Char) : List Char :=
  cs.dropWhile isJsonWs

/-- Value of a hexadecimal digit, by code point ranges. -/
def hexDigitValue (c : Char) : Option Nat :=
  let n := c.toNat
  if 48 ≤ n && n ≤ 57 then some (n - 48)
  else if 97 ≤ n && n ≤ 102 then some (n - 87)
  else if 65 ≤ n && n ≤ 70 then some (n - 55)
  else none

/-- Decimal digit test, by code point. -/
def isDigitCh (c : Char) : Bool :=
  48 ≤ c.toNat && c.toNat ≤ 57

/-- Lex a JSON number literal (sign, integer part without leading zeros,
optional fraction, optional exponent), returning its lexeme and the rest. -/
def lexNumber (cs : List Char) : Option (List Char × List Char) :=
  let (sign, cs1) :=
    match cs with
    | '-' :: r => (['-'], r)
    | _ => ([], cs)
  match cs1 with
  | [] => none
  | c :: r =>
    let intPart? : Option (List Char × List Char) :=
      if c == '0' then some (['0'], r)
      else if '1' ≤ c && c ≤ '9' then
        some (c :: r.takeWhile isDigitCh, r.dropWhile isDigitCh)
      else none
    match intPart? with
    | none => none
    | some (ip, r1) =>
      let frac? : Option (List Char × List Char) :=
        match r1 with
        | '.' :: r2 =>
          let ds := r2.takeWhile isDigitCh
          if ds.isEmpty then none
          else some ('.' :: ds, r2.dropWhile isDigitCh)
        | _ => some ([], r1)
      match frac? with
      | none => none
      | some (fp, r2) =>
        let expPart? : Option (List Char × List Char) :=
          match r2 with
          | e :: r3 =>
            if e == 'e' || e == 'E' then
              let (es, r4) :=
                match r3 with
                | '+' :: r4 => (['+'], r4)
                | '-' :: r4 => (['-'], r4)
                | _ => ([], r3)
              let ds := r4.takeWhile isDigitCh
              if ds.isEmpty then none
              else some (e :: es ++ ds, r4.dropWhile isDigitCh)
            else some ([], r2)
          | [] => some ([], r2)
        match expPart? with
        | none => none
        | some (ep, r3) => some (sign ++ ip ++ fp ++ ep, r3)

/-- Parse the body of a JSON string literal (opening quote already
consumed), accumulating characters until the closing quote. -/
def parseStringBody : Nat → List Char → List Char → Option (String × List Char)
  | 0, _, _ => none
  | _ + 1, [], _ => none
  | fuel + 1, c :: rest, acc =>
    if c == '"' then some (String.mk acc.reverse, rest)
    else if c == '\\' then
      match rest with
      | '"' :: r => parseStringBody fuel r ('"' :: acc)
      | '\\' :: r => parseStringBody fuel r ('\\' :: acc)
      | '/' :: r => parseStringBody fuel r ('/' :: acc)
      | 'b' :: r => parseStringBody fuel r (Char.ofNat 8 :: acc)
      | 'f' :: r => parseStringBody fuel r (Char.ofNat 12 :: acc)
      | 'n' :: r => parseStringBody fuel r ('\n' :: acc)
      | 'r' :: r => parseStringBody fuel r (Char.ofNat 13 :: acc)
      | 't' :: r => parseStringBody fuel r ('\t' :: acc)
      | 'u' :: h1 :: h2 :: h3 :: h4 :: r =>
        match hexDigitValue h1, hexDigitValue h2, hexDigitValue h3, hexDigitValue h4 with
        | some a, some b, some c, some d =>
          parseStringBody fuel r (Char.ofNat (((a * 16 + b) * 16 + c) * 16 + d) :: acc)
        | _, _, _, _ => none
      | _ => none
    else if c.toNat < 32 then none
    else parseStringBody fuel rest (c :: acc)

mutual

/-- Parse one JSON value starting at the given characters. -/
def parseValue : Nat → List Char → Option (Json × List Char)
  | 0, _ => none
  | fuel + 1, cs =>
    match skipWs cs with
    | 'n' :: 'u' :: 'l' :: 'l' :: rest => some (.null, rest)
    | 't' :: 'r' :: 'u' :: 'e' :: rest => some (.bool true, rest)
    | 'f' :: rest =>
      match rest with
      | 'a' :: 'l' :: 's' :: 'e' :: r => some (.bool false, r)
      | _ => none
    | '"' :: rest =>
      match parseStringBody fuel rest [] with
      | some (s, r) => some (.str s, r)
      | none => none
    | '[' :: rest =>
      match skipWs rest with
      | ']' :: r => some (.arr [], r)
      | cs1 =>
        match parseElems fuel cs1 with
        | some (es, r) => some (.arr es, r)
        | none => none
    | '{' :: rest =>
      match skipWs rest with
      | '}' :: r => some (.obj [], r)
      | cs1 =>
        match parseMembers fuel cs1 with
        | some (ms, r) => some (.obj ms, r)
        | none => none
    | cs1 =>
      match lexNumber cs1 with
      | some (lex, r) => some (.num (String.mk lex), r)
      | none => none

/-- Parse the comma-separated elements of a non-empty JSON array, through
the closing bracket. -/
def parseElems : Nat → List Char → Option (List Json × List Char)
  | 0, _ => none
  | fuel + 1, cs =>
    match parseValue fuel cs with
    | none => none
    | some (v, r) =>
      match skipWs r with
      | ',' :: r1 =>
        match parseElems fuel r1 with
        | some (vs, r2) => some (v :: vs, r2)
        | none => none
      | ']' :: r1 => some ([v], r1)
      | _ => none

/-- Parse the comma-separated members of a non-empty JSON object, through
the closing brace. -/
def parseMembers : Nat → List Char → Option (List (String × Json) × List Char)
  | 0, _ => none
  | fuel + 1, cs =>
    match skipWs cs with
    | '"' :: rest =>
      match parseStringBody fuel rest [] with
      | none => none
      | some (k, r) =>
        match skipWs r with
        | ':' :: r1 =>
          match parseValue fuel r1 with
          | none => none
          | some (v, r2) =>
            match skipWs r2 with
            | ',' :: r3 =>
              match parseMembers fuel r3 with
              | some (ms, r4) => some ((k, v) :: ms, r4)
              | none => none
            | '}' :: r3 => some ([(k, v)], r3)
            | _ => none
        | _ => none
    | _ => none

end

/-- Embedding of JavaScript `JSON.parse`: parse one value, requiring only
whitespace after it; `none` models a thrown `SyntaxError`. -/
def Json.parse (s : String) : Option Json :=
  match parseValue (4 * s.data.length + 16) s.data with
  | some (v, rest) => if (skipWs rest).isEmpty then some v else none
  | none => none

/-- The greedy regex match `aiResponse.match(/\x7b[\s\S]*\x7d/)` used by
`parseAIResponse`: the substring from the first opening brace through the
last closing brace after it, if both exist. -/
def extractJson (s : String) : Option String :=
  match s.data.dropWhile (fun c => !(c == '{')) with
  | [] => none
  | c :: rest =>
    let revTail := rest.reverse.dropWhile (fun d => !(d == '}'))
    if revTail.isEmpty then none else some (String.mk (c :: revTail.reverse))

/-- The fallback structured response `parseAIResponse` synthesizes when the
reply contains no JSON substring: `impact` is the raw reply text, the other
fields are fixed placeholders. -/
def fallbackResponse (aiResponse : String) : Json :=
  Json.obj
    [("impact", .str aiResponse),
     ("recommendations", .arr [.str "Review AI response for detailed recommendations"]),
     ("riskLevel", .str "medium"),
     ("releaseReadiness", .bool false),
     ("guidelines", .arr [.str "See full AI analysis for guidelines"])]

/-- Embedding of `parseAIResponse` (integration module): extract the
brace-delimited substring and `JSON.parse` it; a parse failure is rethrown
as a fixed fatal error; with no brace-delimited substring, the fallback
object is returned. -/
def parseAIResponse (aiResponse : String) : Except String Json :=
  match extractJson aiResponse with
  | some jsonMatch =>
    match Json.parse jsonMatch with
    | some v => .ok v
    | none => .error "Failed to parse AI analysis response"
  | none => .ok (fallbackResponse aiResponse)

/-! ### Data model (types.ts) -/

/-- An assignee identity as returned by the tracker (`System.AssignedTo`). -/
structure Identity where
  displayName : String

/-- The work-item field bag; only the fields this system reads are
modelled, each optional because the remote payload may omit it.
Work-hour fields are JavaScript numbers, modelled as `Int` (the code only
sums them). -/
structure WIFields where
  title : Option String := none
  state : Option String := none
  workItemType : Option String := none
  assignedTo : Option Identity := none
  description : Option String := none
  remainingWork : Option Int := none
  completedWork : Option Int := none

/-- A tracker work item: remote integer id plus its field bag. -/
structure WorkItem where
  id : Int
  fields : WIFields

/-- Sprint attributes block: optional dates and the time-frame
classification string. -/
structure SprintAttributes where
  startDate : Option String := none
  finishDate : Option String := none
  timeFrame : String

/-- A sprint / iteration. -/
structure Sprint where
  id : String
  name : String
  path : String := ""
  attributes : SprintAttributes

/-- Derived sprint metrics, mirroring the `SprintMetrics` interface. -/
structure SprintMetrics where
  sprintId : String
  sprintName : String
  totalWorkItems : Nat
  completedWorkItems : Nat
  inProgressWorkItems : Nat
  remainingWork : Int
  completedWork : Int
  velocity : Int
deriving DecidableEq

/-! ### Sprint data loader module (sprintdataloader.ts)

Each outbound HTTP call is modelled by an environment field holding that
call's outcome: `.error m` models a rejected request (with `m` the message
the catch block extracts), `.ok` a successful JSON response.  Functions
that conditionally issue a bulk-detail call also return the list of
bulk-detail calls they issued, so that claims about which remote calls
happen are statable. -/

/-- A work-item reference from the iteration work-items endpoint; the
`target` link may be absent. -/
structure WorkItemTarget where
  id : Int

/-- A `workItemRelations` entry. -/
structure WorkItemRef where
  target : Option WorkItemTarget

/-- Remote responses consumed by the sprint data loader. -/
structure SprintEnv where
  iterations : Except String (List Sprint)
  iterationWorkItems : String → Except String (List WorkItemRef)
  workItemDetails : List Int → Except String (List WorkItem)

/-- Embedding of `getSprints`: return the iterations list, replacing any
remote failure by the module's fixed error message. -/
def getSprints (env : SprintEnv) : Except String (List Sprint) :=
  match env.iterations with
  | .ok v => .ok v
  | .error _ => .error "Failed to fetch sprints from Azure DevOps"

/-- Embedding of `getSprintWorkItems`: fetch the iteration's work-item
references, keep the ids of references that have a target, and bulk-fetch
details only when at least one id remains.  The second component is the
list of bulk-detail calls issued. -/
def getSprintWorkItems (env : SprintEnv) (sprintId : String) :
    Except String (List WorkItem) × List (List Int) :=
  match env.iterationWorkItems sprintId with
  | .error _ => (.error "Failed to fetch work items for sprint", [])
  | .ok workItemRefs =>
    let workItemIds := workItemRefs.filterMap (fun ref => ref.target.map WorkItemTarget.id)
    if workItemIds.isEmpty then (.ok [], [])
    else
      match env.workItemDetails workItemIds with
      | .ok items => (.ok items, [workItemIds])
      | .error _ => (.error "Failed to fetch work items for sprint", [workItemIds])

/-- Embedding of `calculateSprintMetrics`: partition by state, sum the two
work-hour fields treating a missing field as 0, velocity = completed
hours. -/
def calculateSprintMetrics (sprint : Sprint) (workItems : List WorkItem) : SprintMetrics :=
  let completed := workItems.filter
    (fun item => item.fields.state == some "Done" || item.fields.state == some "Closed")
  let inProgress := workItems.filter
    (fun item => item.fields.state == some "Active" || item.fields.state == some "In Progress")
  let totalRemaining := workItems.foldl (fun sum item => sum + item.fields.remainingWork.getD 0) 0
  let totalCompleted := workItems.foldl (fun sum item => sum + item.fields.completedWork.getD 0) 0
  { sprintId := sprint.id
    sprintName := sprint.name
    totalWorkItems := workItems.length
    completedWorkItems := completed.length
    inProgressWorkItems := inProgress.length
    remainingWork := totalRemaining
    completedWork := totalCompleted
    velocity := totalCompleted }

/-- Embedding of `getCurrentSprintMetrics`: first sprint whose time frame
is "current", its work items, its metrics; `.ok none` models the JS
`null` return, errors are rethrown unchanged. -/
def getCurrentSprintMetrics (env : SprintEnv) : Except String (Option SprintMetrics) :=
  match getSprints env with
  | .error e => .error e
  | .ok sprints =>
    match sprints.find? (fun s => s.attributes.timeFrame == "current") with
    | none => .ok none
    | some currentSprint =>
      match (getSprintWorkItems env currentSprint.id).fst with
      | .error e => .error e
      | .ok workItems => .ok (some (calculateSprintMetrics currentSprint workItems))

/-! ### Work-item manager module (workitemmanager.ts) -/

/-- One JSON-patch operation of a patch document. -/
structure PatchOperation where
  op : String
  path : String
  value : String
deriving DecidableEq

/-- A patch request: target path plus its ordered patch document. -/
structure PatchRequest where
  path : String
  operations : List PatchOperation
deriving DecidableEq

/-- Remote responses consumed by the WIQL task query of `getAllTasks`:
the query result (`data.workItems` may be absent) and the bulk detail
response (`data.value` may be absent). -/
structure TaskQueryEnv where
  wiqlWorkItemIds : Except String (Option (List Int))
  workItemDetails : List Int → Except String (Option (List WorkItem))

/-- Remote responses consumed by the work-item manager. -/
structure WorkItemEnv where
  post : String → List PatchOperation → Except String WorkItem
  patch : PatchRequest → Except String WorkItem
  getItem : Int → Except String WorkItem
  taskQuery : TaskQueryEnv

/-- Uppercase hexadecimal digit, by code point. -/
def hexDigit (n : Nat) : Char :=
  Char.ofNat (if n < 10 then 48 + n else 55 + n)

/-- Characters `encodeURIComponent` leaves unescaped: ASCII letters and
digits (by code point range) and the nine unreserved marks. -/
def isUnreservedURIChar (c : Char) : Bool :=
  let n := c.toNat
  (65 ≤ n && n ≤ 90) || (97 ≤ n && n ≤ 122) || (48 ≤ n && n ≤ 57) ||
  c == '-' || c == '_' || c == '.' || c == '!' || c == '~' || c == '*' ||
  n == 39 || c == '(' || c == ')'

/-- UTF-8 bytes of a character. -/
def utf8Bytes (c : Char) : List Nat :=
  let n := c.toNat
  if n < 128 then [n]
  else if n < 2048 then [192 + n / 64, 128 + n % 64]
  else if n < 65536 then [224 + n / 4096, 128 + n / 64 % 64, 128 + n % 64]
  else [240 + n / 262144, 128 + n / 4096 % 64, 128 + n / 64 % 64, 128 + n % 64]

/-- Percent-encoding of one byte. -/
def percentEncodeByte (b : Nat) : List Char :=
  ['%', hexDigit (b / 16), hexDigit (b % 16)]

/-- Embedding of JavaScript `encodeURIComponent`. -/
def encodeURIComponent (s : String) : String :=
  String.mk ((s.data.map (fun c =>
    if isUnreservedURIChar c then [c]
    else ((utf8Bytes c).map percentEncodeByte).flatten)).flatten)

/-- The patch document and creation path built by `createWorkItem`:
a title add-operation always first, then a description operation only when
the (JS-truthy) description is given, then an assignee operation only when
the assignee is given; the path carries the URL-encoded work-item type. -/
def createWorkItemRequest (workItemType title : String)
    (description assignedTo : Option String) : List PatchOperation × String :=
  let operations := [PatchOperation.mk "add" "/fields/System.Title" title]
  let operations := if jsTruthyStr description then
    operations ++ [PatchOperation.mk "add" "/fields/System.Description" (description.getD "")]
    else operations
  let operations := if jsTruthyStr assignedTo then
    operations ++ [PatchOperation.mk "add" "/fields/System.AssignedTo" (assignedTo.getD "")]
    else operations
  let encodedType := encodeURIComponent workItemType
  (operations, "/wit/workitems/$" ++ encodedType)

/-- Embedding of `createWorkItem`: build the patch document, post it to the
type-specific creation path, wrap any remote failure in the module's
creation error message. -/
def createWorkItem (env : WorkItemEnv) (workItemType title : String)
    (description assignedTo : Option String) : Except String WorkItem :=
  let req := createWorkItemRequest workItemType title description assignedTo
  match env.post req.snd req.fst with
  | .ok r => .ok r
  | .error m => .error ("Failed to create " ++ workItemType ++ ": " ++ m)

/-- Embedding of `updateWorkItem`: one replace-operation per entry of the
updates map, in map order, patched to the item's endpoint.  Returns the
patch request together with the (error-wrapped) remote outcome. -/
def updateWorkItem (env : WorkItemEnv) (workItemId : Int)
    (updates : List (String × String)) : PatchRequest × Except String WorkItem :=
  let operations := updates.map
    (fun u => PatchOperation.mk "replace" ("/fields/" ++ u.fst) u.snd)
  let request := PatchRequest.mk ("/wit/workitems/" ++ toString workItemId) operations
  (request,
    match env.patch request with
    | .ok r => .ok r
    | .error m => .error ("Failed to update work item " ++ toString workItemId ++ ": " ++ m))

/-- Embedding of `updateWorkItemState`: delegate to `updateWorkItem` with a
single `System.State` entry. -/
def updateWorkItemState (env : WorkItemEnv) (workItemId : Int) (state : String) :
    PatchRequest × Except String WorkItem :=
  updateWorkItem env workItemId [("System.State", state)]

/-- Embedding of `getWorkItem`. -/
def getWorkItem (env : WorkItemEnv) (workItemId : Int) : Except String WorkItem :=
  match env.getItem workItemId with
  | .ok r => .ok r
  | .error m => .error ("Failed to fetch work item " ++ toString workItemId ++ ": " ++ m)

/-- Embedding of `deleteWorkItem`. -/
def deleteWorkItem (env : Int → Except String Unit) (workItemId : Int) :
    Except String Bool :=
  match env workItemId with
  | .ok _ => .ok true
  | .error m => .error ("Failed to delete work item " ++ toString workItemId ++ ": " ++ m)

/-- Embedding of `getAllTasks`: run the WIQL query (a missing
`data.workItems` yields the empty id list), and only when ids remain,
bulk-fetch details for at most the first 200 of them.  The second
component is the list of bulk-detail calls issued. -/
def getAllTasks (env : TaskQueryEnv) : Except String (List WorkItem) × List (List Int) :=
  match env.wiqlWorkItemIds with
  | .error m => (.error ("Failed to fetch all tasks: " ++ m), [])
  | .ok ids? =>
    let workItemIds := ids?.getD []
    if workItemIds.isEmpty then (.ok [], [])
    else
      let idsToFetch := workItemIds.take 200
      match env.workItemDetails idsToFetch with
      | .error m => (.error ("Failed to fetch all tasks: " ++ m), [idsToFetch])
      | .ok v? => (.ok (v?.getD []), [idsToFetch])

/-! ### AI integration module (integration.ts)

The chat-completion call is modelled by its outcome: `.ok content` is the
reply text `data.choices[0]?.message?.content || ''`, `.error` a rejected
request. -/

/-- Embedding of `analyzeSprintWithAI` given the chat reply outcome: parse
the reply with `parseAIResponse`; any failure inside the try block (the
remote call or the parse step) is rethrown as the module's fixed analysis
error. -/
def analyzeSprintWithAI (chatReply : Except String String) : Except String Json :=
  match chatReply with
  | .error _ => .error "Failed to get AI analysis"
  | .ok aiContent =>
    match parseAIResponse aiContent with
    | .ok v => .ok v
    | .error _ => .error "Failed to get AI analysis"

/-- Embedding of `getWorkItemRecommendations` given the chat reply outcome:
return the raw completion text, a placeholder when it is empty, and the
module's fixed error on a rejected request. -/
def getWorkItemRecommendations (chatReply : Except String String) : Except String String :=
  match chatReply with
  | .error _ => .error "Failed to get AI recommendations"
  | .ok content => .ok (if content == "" then "No recommendations available" else content)

/-! ### Board manager module (boardmanager.ts) -/

/-- A board reference. -/
structure BoardReference where
  id : String
  name : String
  url : String

/-- A board column (the fields the dispatcher reshapes). -/
structure BoardColumn where
  id : String
  name : String
  itemLimit : Int
  stateMappings : List (String × String)
  columnType : String

/-- Remote responses consumed by the board manager; `data.value` may be
absent from a successful response. -/
structure BoardEnv where
  boards : Except String (Option (List BoardReference))
  boardColumns : String → Except String (Option (List BoardColumn))

/-- Embedding of `getBoards`. -/
def getBoards (env : BoardEnv) : Except String (List BoardReference) :=
  match env.boards with
  | .ok v? => .ok (v?.getD [])
  | .error m => .error ("Failed to fetch boards: " ++ m)

/-- Embedding of `getBoardColumns`. -/
def getBoardColumns (env : BoardEnv) (boardId : String) : Except String (List BoardColumn) :=
  match env.boardColumns boardId with
  | .ok v? => .ok (v?.getD [])
  | .error m => .error ("Failed to fetch columns for board " ++ boardId ++ ": " ++ m)

/-! ### MCP relay module (mcpserver.ts) -/

/-- Relay configuration: feature flag and optional target URL. -/
structure MCPConfig where
  enabled : Bool
  serverUrl : Option String

/-- An initialized relay HTTP client. -/
structure MCPClient where
  baseURL : String

/-- Client construction performed once at module load: a client exists only
when the flag is on and the URL is JS-truthy. -/
def makeMCPClient (cfg : MCPConfig) : Option MCPClient :=
  if cfg.enabled && jsTruthyStr cfg.serverUrl then some ⟨cfg.serverUrl.getD ""⟩ else none

/-- Embedding of `isMCPEnabled`. -/
def isMCPEnabled (client : Option MCPClient) : Bool :=
  client.isSome

/-- A relay message envelope.  The payload member list is in insertion
order; in the JS object spread a later duplicate key would win. -/
structure MCPMessage where
  type : String
  payload : List (String × Json)
  timestamp : Nat

/-- Relay status result. -/
structure MCPStatus where
  online : Bool
  version : Option String
deriving DecidableEq

/-- Relay network outcomes: the two POST endpoints and the version field of
the status response. -/
structure MCPNet where
  postCommand : MCPMessage → Except String MCPMessage
  postQuery : MCPMessage → Except String MCPMessage
  statusVersion : Except String (Option String)

/-- Embedding of `sendMCPCommand`: fail fast when no client was
initialized; otherwise wrap the payload in a command envelope and post it.
The second component lists the relay messages actually posted. -/
def sendMCPCommand (client : Option MCPClient) (net : MCPNet) (command : String)
    (payload : List (String × Json)) (now : Nat) :
    Except String MCPMessage × List MCPMessage :=
  match client with
  | none => (.error "MCP is not enabled or configured", [])
  | some _ =>
    let message : MCPMessage := ⟨"command", ("command", .str command) :: payload, now⟩
    match net.postCommand message with
    | .ok r => (.ok r, [message])
    | .error _ => (.error "Failed to send MCP command", [message])

/-- Embedding of `queryMCP`: fail fast when no client was initialized;
otherwise wrap the query in a query envelope and post it. -/
def queryMCP (client : Option MCPClient) (net : MCPNet) (query : String) (now : Nat) :
    Except String MCPMessage × List MCPMessage :=
  match client with
  | none => (.error "MCP is not enabled or configured", [])
  | some _ =>
    let message : MCPMessage := ⟨"query", [("query", .str query)], now⟩
    match net.postQuery message with
    | .ok r => (.ok r, [message])
    | .error _ => (.error "Failed to query MCP server", [message])

/-- Embedding of `getMCPStatus`: offline (without error and without a
network call) when no client was initialized; otherwise online on a
successful status fetch and offline on a failed one.  The second component
counts the status calls issued. -/
def getMCPStatus (client : Option MCPClient) (net : MCPNet) : MCPStatus × Nat :=
  match client with
  | none => (⟨false, none⟩, 0)
  | some _ =>
    match net.statusVersion with
    | .ok version => (⟨true, version⟩, 1)
    | .error _ => (⟨false, none⟩, 1)

/-! ### JSON serialization

Stands for `JSON.stringify(·, null, 2)`; the pretty-printing whitespace is
abstracted away (no claim inspects it), escaping and member order follow
`JSON.stringify`. -/

/-- Escape one character of a JSON string literal. -/
def escapeJsonChar (c : Char) : List Char :=
  if c == '"' then ['\\', '"']
  else if c == '\\' then ['\\', '\\']
  else if c == '\n' then ['\\', 'n']
  else if c.toNat == 13 then ['\\', 'r']
  else if c == '\t' then ['\\', 't']
  else if c.toNat == 8 then ['\\', 'b']
  else if c.toNat == 12 then ['\\', 'f']
  else if c.toNat < 32 then
    ['\\', 'u', '0', '0', hexDigit (c.toNat / 16), hexDigit (c.toNat % 16)]
  else [c]

/-- Quote a string as a JSON string literal. -/
def quoteJson (s : String) : String :=
  String.mk ('"' :: (s.data.map escapeJsonChar).flatten ++ ['"'])

mutual

/-- Serialize a JSON value (whitespace-free form of `JSON.stringify`). -/
def Json.stringify : Json → String
  | .null => "null"
  | .bool true => "true"
  | .bool false => "false"
  | .num lexeme => lexeme
  | .str s => quoteJson s
  | .arr elems => "[" ++ stringifyElems elems ++ "]"
  | .obj members => "\x7b" ++ stringifyMembers members ++ "\x7d"

/-- Serialize array elements, comma-separated. -/
def stringifyElems : List Json → String
  | [] => ""
  | [v] => Json.stringify v
  | v :: vs => Json.stringify v ++ "," ++ stringifyElems vs

/-- Serialize object members, comma-separated. -/
def stringifyMembers : List (String × Json) → String
  | [] => ""
  | [(k, v)] => quoteJson k ++ ":" ++ Json.stringify v
  | (k, v) :: ms => quoteJson k ++ ":" ++ Json.stringify v ++ "," ++ stringifyMembers ms

end

/-- Member lookup in a JSON object (first occurrence). -/
def Json.getMember : Json → String → Option Json
  | .obj members, k => (members.find? (fun p => p.fst == k)).map Prod.snd
  | _, _ => none

/-! ### MCP tool dispatcher (mcp/tools.ts, mcp/handlers.ts) -/

/-- JavaScript truthiness for an optional numeric field: `undefined` and 0
are falsy. -/
def jsTruthyInt : Option Int → Bool
  | none => false
  | some n => !(n == 0)

/-- A member list contribution for an object field: omitted entirely when
the value is `undefined` (as `JSON.stringify` omits such fields). -/
def optMember (k : String) : Option String → List (String × Json)
  | some v => [(k, .str v)]
  | none => []

/-- The `assignedTo` summary field:
`fields['System.AssignedTo']?.displayName || 'Unassigned'` — an absent
assignee or an empty display name yields the placeholder. -/
def jsAssignedTo : Option Identity → String
  | none => "Unassigned"
  | some p => if p.displayName == "" then "Unassigned" else p.displayName

/-- The `description` summary field:
`fields['System.Description']?.substring(0, 200) || ''`. -/
def jsDescription200 : Option String → String
  | none => ""
  | some d => String.mk (d.data.take 200)

/-- Template-string rendering of a possibly-undefined value. -/
def jsTemplateOpt : Option String → String
  | some s => s
  | none => "undefined"

/-- The registry of MCP tools with their required-argument lists, from the
`inputSchema.required` field of each `MCP_TOOLS` entry. -/
def MCP_TOOLS : List (String × List String) :=
  [("get_sprints", []),
   ("get_sprint_work_items", ["sprintId"]),
   ("get_current_sprint_metrics", []),
   ("create_work_item", ["workItemType", "title"]),
   ("update_work_item", ["workItemId", "updates"]),
   ("get_work_item", ["workItemId"]),
   ("analyze_sprint_with_ai", []),
   ("get_all_tasks", []),
   ("get_boards", []),
   ("get_board_columns", ["boardId"])]

/-- The named arguments of a tool call, each optional. -/
structure ToolArgs where
  sprintId : Option String := none
  workItemType : Option String := none
  title : Option String := none
  description : Option String := none
  assignedTo : Option String := none
  workItemId : Option Int := none
  updates : Option (List (String × String)) := none
  boardId : Option String := none
  context : Option String := none

/-- Whether a named argument is present (JS-truthy) in the arguments; an
`updates` object is truthy whenever present. -/
def argProvided (args : ToolArgs) : String → Bool
  | "sprintId" => jsTruthyStr args.sprintId
  | "workItemType" => jsTruthyStr args.workItemType
  | "title" => jsTruthyStr args.title
  | "workItemId" => jsTruthyInt args.workItemId
  | "updates" => args.updates.isSome
  | "boardId" => jsTruthyStr args.boardId
  | _ => false

/-- A tool-call request. -/
structure MCPToolCallRequest where
  name : String
  arguments : ToolArgs

/-- One content block of a tool-call response. -/
structure MCPContent where
  type : String
  text : String

/-- A tool-call response: content blocks plus the optional error flag. -/
structure MCPToolCallResponse where
  content : List MCPContent
  isError : Option Bool

/-- The full environment of remote outcomes the dispatcher's components
consume.  `aiChat` is the chat-completion reply for the analysis request
built from the given metrics, work items and context. -/
structure ToolEnv where
  sprint : SprintEnv
  workItems : WorkItemEnv
  boardEnv : BoardEnv
  aiChat : SprintMetrics → List WorkItem → Option String → Except String String
  azureOrgUrl : Option String
  azureProject : Option String

/-- The concise sprint summary returned by `get_sprints`. -/
def reshapeSprint (s : Sprint) : Json :=
  Json.obj ([("id", .str s.id), ("name", .str s.name), ("path", .str s.path),
    ("timeFrame", .str s.attributes.timeFrame)] ++
    optMember "startDate" s.attributes.startDate ++
    optMember "finishDate" s.attributes.finishDate)

/-- The concise work-item summary returned by `get_sprint_work_items`. -/
def reshapeWorkItemSummary (wi : WorkItem) : Json :=
  Json.obj ([("id", .num (toString wi.id))] ++
    optMember "type" wi.fields.workItemType ++
    optMember "title" wi.fields.title ++
    optMember "state" wi.fields.state ++
    [("assignedTo", .str (jsAssignedTo wi.fields.assignedTo))])

/-- The essential summary returned by `create_work_item`, with the edit
URL rebuilt from the environment variables. -/
def reshapeCreatedWorkItem (orgUrl project : Option String) (wi : WorkItem) : Json :=
  Json.obj ([("id", .num (toString wi.id))] ++
    optMember "type" wi.fields.workItemType ++
    optMember "title" wi.fields.title ++
    optMember "state" wi.fields.state ++
    [("url", .str ("https://dev.azure.com/" ++
      jsTemplateOpt (orgUrl.map (fun u => (u.splitOn "/").getLastD "")) ++ "/" ++
      jsTemplateOpt project ++ "/_workitems/edit/" ++ toString wi.id))])

/-- The essential summary returned by `update_work_item`. -/
def reshapeUpdatedWorkItem (wi : WorkItem) : Json :=
  Json.obj ([("id", .num (toString wi.id))] ++
    optMember "title" wi.fields.title ++
    optMember "state" wi.fields.state ++
    [("updated", .bool true)])

/-- The concise summary returned by `get_work_item`: type, title, state,
assignee placeholder-defaulted, description truncated to 200 characters. -/
def reshapeGetWorkItem (wi : WorkItem) : Json :=
  Json.obj ([("id", .num (toString wi.id))] ++
    optMember "type" wi.fields.workItemType ++
    optMember "title" wi.fields.title ++
    optMember "state" wi.fields.state ++
    [("assignedTo", .str (jsAssignedTo wi.fields.assignedTo)),
     ("description", .str (jsDescription200 wi.fields.description))])

/-- The concise task summary returned by `get_all_tasks`. -/
def reshapeTaskSummary (task : WorkItem) : Json :=
  Json.obj ([("id", .num (toString task.id))] ++
    optMember "title" task.fields.title ++
    optMember "state" task.fields.state ++
    [("assignedTo", .str (jsAssignedTo task.fields.assignedTo))])

/-- The concise board summary returned by `get_boards`. -/
def reshapeBoard (b : BoardReference) : Json :=
  Json.obj [("id", .str b.id), ("name", .str b.name), ("url", .str b.url)]

/-- The essential column summary returned by `get_board_columns`. -/
def reshapeColumn (c : BoardColumn) : Json :=
  Json.obj [("id", .str c.id), ("name", .str c.name),
    ("itemLimit", .num (toString c.itemLimit)), ("columnType", .str c.columnType),
    ("stateMappings", .obj (c.stateMappings.map (fun p => (p.fst, Json.str p.snd))))]

/-- JSON form of a sprint-metrics record. -/
def jsonOfMetrics (m : SprintMetrics) : Json :=
  Json.obj [("sprintId", .str m.sprintId), ("sprintName", .str m.sprintName),
    ("totalWorkItems", .num (toString m.totalWorkItems)),
    ("completedWorkItems", .num (toString m.completedWorkItems)),
    ("inProgressWorkItems", .num (toString m.inProgressWorkItems)),
    ("remainingWork", .num (toString m.remainingWork)),
    ("completedWork", .num (toString m.completedWork)),
    ("velocity", .num (toString m.velocity))]

/-- The body of `executeToolCall`'s try block: the switch over the tool
name, where a thrown error is modelled as `.error` with the thrown
message. -/
def executeToolCallResult (env : ToolEnv) (request : MCPToolCallRequest) :
    Except String Json :=
  let args := request.arguments
  if request.name == "get_sprints" then
    match getSprints env.sprint with
    | .error m => .error m
    | .ok allSprints => .ok (.arr (allSprints.map reshapeSprint))
  else if request.name == "get_sprint_work_items" then
    if !jsTruthyStr args.sprintId then .error "sprintId is required"
    else match (getSprintWorkItems env.sprint (args.sprintId.getD "")).fst with
      | .error m => .error m
      | .ok sprintWorkItems => .ok (.arr (sprintWorkItems.map reshapeWorkItemSummary))
  else if request.name == "get_current_sprint_metrics" then
    match getCurrentSprintMetrics env.sprint with
    | .error m => .error m
    | .ok (some m) => .ok (jsonOfMetrics m)
    | .ok none => .ok Json.null
  else if request.name == "create_work_item" then
    if !jsTruthyStr args.workItemType || !jsTruthyStr args.title then
      .error "workItemType and title are required"
    else match createWorkItem env.workItems (args.workItemType.getD "")
        (args.title.getD "") args.description args.assignedTo with
      | .error m => .error m
      | .ok wi => .ok (reshapeCreatedWorkItem env.azureOrgUrl env.azureProject wi)
  else if request.name == "update_work_item" then
    if !jsTruthyInt args.workItemId || !args.updates.isSome then
      .error "workItemId and updates are required"
    else match (updateWorkItem env.workItems (args.workItemId.getD 0) (args.updates.getD [])).snd with
      | .error m => .error m
      | .ok wi => .ok (reshapeUpdatedWorkItem wi)
  else if request.name == "get_work_item" then
    if !jsTruthyInt args.workItemId then .error "workItemId is required"
    else match getWorkItem env.workItems (args.workItemId.getD 0) with
      | .error m => .error m
      | .ok wi => .ok (reshapeGetWorkItem wi)
  else if request.name == "analyze_sprint_with_ai" then
    match getCurrentSprintMetrics env.sprint with
    | .error m => .error m
    | .ok none => .error "No active sprint found"
    | .ok (some metrics) =>
      match getSprints env.sprint with
      | .error m => .error m
      | .ok sprints =>
        match sprints.find? (fun s => s.attributes.timeFrame == "current") with
        | none => .error "No current sprint found"
        | some currentSprint =>
          match (getSprintWorkItems env.sprint currentSprint.id).fst with
          | .error m => .error m
          | .ok workItems => analyzeSprintWithAI (env.aiChat metrics workItems args.context)
  else if request.name == "get_all_tasks" then
    match (getAllTasks env.workItems.taskQuery).fst with
    | .error m => .error m
    | .ok allTasks => .ok (.arr (allTasks.map reshapeTaskSummary))
  else if request.name == "get_boards" then
    match getBoards env.boardEnv with
    | .error m => .error m
    | .ok boards => .ok (.arr (boards.map reshapeBoard))
  else if request.name == "get_board_columns" then
    if !jsTruthyStr args.boardId then .error "boardId is required"
    else match getBoardColumns env.boardEnv (args.boardId.getD "") with
      | .error m => .error m
      | .ok columns => .ok (.arr (columns.map reshapeColumn))
  else .error ("Unknown tool: " ++ request.name)

/-- Embedding of `executeToolCall`: wrap the switch outcome as a single
text content block — serialized result on success, prefixed message with
the error flag on any failure. -/
def executeToolCall (env : ToolEnv) (request : MCPToolCallRequest) : MCPToolCallResponse :=
  match executeToolCallResult env request with
  | .ok result => ⟨[⟨"text", Json.stringify result⟩], none⟩
  | .error errorMessage => ⟨[⟨"text", "Error: " ++ errorMessage⟩], some true⟩

/-! ### REST routes (routes/index.ts)

Each route is embedded as a function from the remote-outcome environment
(plus its request parameters and the response timestamp `Date.now()`) to
an HTTP status and response envelope.  The envelope is generic in the data
type, as the TypeScript `ApiResponse<T>` is. -/

/-- The uniform response envelope. -/
structure ApiResponse (α : Type) where
  success : Bool
  data : Option α
  error : Option String
  timestamp : Nat
deriving DecidableEq

/-- Embedding of the `createResponse` helper. -/
def createResponse {α : Type} (success : Bool) (data : Option α)
    (error : Option String) (ts : Nat) : ApiResponse α :=
  { success := success, data := data, error := error, timestamp := ts }

/-- An HTTP response: status code plus envelope body. -/
structure RouteResponse (α : Type) where
  status : Nat
  body : ApiResponse α
deriving DecidableEq

/-- The `{deleted: true}` acknowledgement body of the delete route. -/
structure DeleteAck where
  deleted : Bool
deriving DecidableEq

/-- The `{recommendations}` wrapper body of the recommendations route. -/
structure RecommendationsBody where
  recommendations : String
deriving DecidableEq

/-- Remote outcomes consumed by the REST router. -/
structure RouteEnv where
  sprint : SprintEnv
  workItems : WorkItemEnv
  deleteItem : Int → Except String Unit
  analyzeChat : SprintMetrics → List WorkItem → Option String → Except String String
  recommendChat : WorkItem → Except String String
  mcpClient : Option MCPClient
  mcpNet : MCPNet

/-- GET /sprints. -/
def routeGetSprints (env : RouteEnv) (ts : Nat) : RouteResponse (List Sprint) :=
  match getSprints env.sprint with
  | .ok sprints => ⟨200, createResponse true (some sprints) none ts⟩
  | .error m => ⟨500, createResponse false none (some m) ts⟩

/-- GET /sprints/:sprintId/workitems. -/
def routeGetSprintWorkItems (env : RouteEnv) (sprintId : String) (ts : Nat) :
    RouteResponse (List WorkItem) :=
  match (getSprintWorkItems env.sprint sprintId).fst with
  | .ok workItems => ⟨200, createResponse true (some workItems) none ts⟩
  | .error m => ⟨500, createResponse false none (some m) ts⟩

/-- GET /sprints/current/metrics. -/
def routeGetCurrentSprintMetrics (env : RouteEnv) (ts : Nat) :
    RouteResponse (Option SprintMetrics) :=
  match getCurrentSprintMetrics env.sprint with
  | .ok metrics => ⟨200, createResponse true (some metrics) none ts⟩
  | .error m => ⟨500, createResponse false none (some m) ts⟩

/-- POST /workitems. -/
def routeCreateWorkItem (env : RouteEnv) (workItemType title : String)
    (description assignedTo : Option String) (ts : Nat) : RouteResponse WorkItem :=
  match createWorkItem env.workItems workItemType title description assignedTo with
  | .ok workItem => ⟨200, createResponse true (some workItem) none ts⟩
  | .error m => ⟨500, createResponse false none (some m) ts⟩

/-- GET /workitems/:id. -/
def routeGetWorkItem (env : RouteEnv) (workItemId : Int) (ts : Nat) :
    RouteResponse WorkItem :=
  match getWorkItem env.workItems workItemId with
  | .ok workItem => ⟨200, createResponse true (some workItem) none ts⟩
  | .error m => ⟨500, createResponse false none (some m) ts⟩

/-- PATCH /workitems/:id. -/
def routeUpdateWorkItem (env : RouteEnv) (workItemId : Int)
    (updates : List (String × String)) (ts : Nat) : RouteResponse WorkItem :=
  match (updateWorkItem env.workItems workItemId updates).snd with
  | .ok workItem => ⟨200, createResponse true (some workItem) none ts⟩
  | .error m => ⟨500, createResponse false none (some m) ts⟩

/-- DELETE /workitems/:id. -/
def routeDeleteWorkItem (env : RouteEnv) (workItemId : Int) (ts : Nat) :
    RouteResponse DeleteAck :=
  match deleteWorkItem env.deleteItem workItemId with
  | .ok _ => ⟨200, createResponse true (some ⟨true⟩) none ts⟩
  | .error m => ⟨500, createResponse false none (some m) ts⟩

/-- POST /ai/analyze-sprint. -/
def routeAnalyzeSprint (env : RouteEnv) (sprintData : SprintMetrics)
    (workItems : List WorkItem) (context : Option String) (ts : Nat) :
    RouteResponse Json :=
  match analyzeSprintWithAI (env.analyzeChat sprintData workItems context) with
  | .ok analysis => ⟨200, createResponse true (some analysis) none ts⟩
  | .error m => ⟨500, createResponse false none (some m) ts⟩

/-- POST /ai/workitem-recommendations. -/
def routeWorkItemRecommendations (env : RouteEnv) (workItem : WorkItem) (ts : Nat) :
    RouteResponse RecommendationsBody :=
  match getWorkItemRecommendations (env.recommendChat workItem) with
  | .ok recommendations => ⟨200, createResponse true (some ⟨recommendations⟩) none ts⟩
  | .error m => ⟨500, createResponse false none (some m) ts⟩

/-- GET /mcp/status — `getMCPStatus` never throws, so the route always
answers with the success envelope. -/
def routeMCPStatus (env : RouteEnv) (ts : Nat) : RouteResponse MCPStatus :=
  ⟨200, createResponse true (some (getMCPStatus env.mcpClient env.mcpNet).fst) none ts⟩

/-- POST /mcp/command. -/
def routeMCPCommand (env : RouteEnv) (command : String) (payload : List (String × Json))
    (now ts : Nat) : RouteResponse MCPMessage :=
  match (sendMCPCommand env.mcpClient env.mcpNet command payload now).fst with
  | .ok response => ⟨200, createResponse true (some response) none ts⟩
  | .error m => ⟨500, createResponse false none (some m) ts⟩

/-- POST /mcp/query. -/
def routeMCPQuery (env : RouteEnv) (query : String) (now ts : Nat) :
    RouteResponse MCPMessage :=
  match (queryMCP env.mcpClient env.mcpNet query now).fst with
  | .ok response => ⟨200, createResponse true (some response) none ts⟩
  | .error m => ⟨500, createResponse false none (some m) ts⟩

/-- The uniform envelope discipline claimed of every operation route: the
route's response is determined by the underlying operation's outcome — a
200 success envelope holding the data, or a 500 envelope holding exactly
the thrown error's message. -/
def respondsUniformly {α : Type} (resp : RouteResponse α)
    (result : Except String α) (ts : Nat) : Prop :=
  match result with
  | .ok d => resp = ⟨200, ⟨true, some d, none, ts⟩⟩
  | .error m => resp = ⟨500, ⟨false, none, some m, ts⟩⟩

/-! ### Sample environments used by concrete witnesses -/

/-- A work-item field bag with every field absent. -/
def emptyWIFields : WIFields := {}

/-- A task-query environment whose query yields no ids. -/
def sampleTaskQueryEnv : TaskQueryEnv := ⟨.ok none, fun _ => .ok none⟩

/-- A work-item environment whose every remote call yields the given
outcome. -/
def sampleWorkItemEnv (item : Except String WorkItem) : WorkItemEnv :=
  ⟨fun _ _ => item, fun _ => item, fun _ => item, sampleTaskQueryEnv⟩

/-- A sprint environment with no iterations and no work items. -/
def sampleSprintEnv : SprintEnv := ⟨.ok [], fun _ => .ok [], fun _ => .ok []⟩

/-- A board environment with empty remote payloads. -/
def sampleBoardEnv : BoardEnv := ⟨.ok none, fun _ => .ok none⟩

/-- A full dispatcher environment around the given work-item outcome. -/
def sampleToolEnv (item : Except String WorkItem) : ToolEnv :=
  ⟨sampleSprintEnv, sampleWorkItemEnv item, sampleBoardEnv, fun _ _ _ => .error "down",
    none, none⟩

/-! ### Helper lemmas -/

/-- A left fold accumulating sums equals the sum of the mapped list. -/
theorem foldl_add_getD (f : WorkItem → Int) (l : List WorkItem) (a : Int) :
    l.foldl (fun sum i => sum + f i) a = a + (l.map f).sum := by
  induction l generalizing a with
  | nil => simp
  | cons w ws hrec => simp [hrec, add_assoc]

/-- `find?` returns the first element satisfying the predicate. -/
theorem find?_first {α : Type} (p : α → Bool) (pre : List α) (cur : α) (post : List α)
    (hpre : ∀ x ∈ pre, p x = false) (hcur : p cur = true) :
    (pre ++ cur :: post).find? p = some cur := by
  induction pre with
  | nil => exact List.find?_cons_of_pos post hcur
  | cons a l ih =>
    rw [List.cons_append, List.find?_cons_of_neg _ (by simp [hpre a (by simp)])]
    exact ih (fun x hx => hpre x (by simp [hx]))

/-! ### Claim theorems -/

/-- C1 (amended): `parseAIResponse` behaves by case on the greedy
brace-delimited extraction: if the extracted substring parses, the parsed
object is returned; if there is no brace-delimited substring (no opening
brace, or no closing brace after it), the fallback object with `impact`
equal to the raw reply, `riskLevel` "medium" and `releaseReadiness` false
is returned without throwing; if an extracted substring fails to parse,
the fixed fatal parse error is raised.  In particular the spec's own
examples behave as stated for the embedded-object and no-JSON replies,
while the malformed case needs a closing brace to be fatal (e.g.
"\x7bnot valid json\x7d"). -/
theorem parseAIResponse_case_analysis (s : String) :
    (∀ j v, extractJson s = some j → Json.parse j = some v → parseAIResponse s = .ok v) ∧
    (extractJson s = none → parseAIResponse s = .ok (fallbackResponse s)) ∧
    (∀ j, extractJson s = some j → Json.parse j = none →
      parseAIResponse s = .error "Failed to parse AI analysis response") ∧
    parseAIResponse "blah \x7b\"impact\":\"ok\",\"recommendations\":[],\"riskLevel\":\"low\",\"releaseReadiness\":true,\"guidelines\":[]\x7d trailing" =
      .ok (Json.obj [("impact", .str "ok"), ("recommendations", .arr []),
        ("riskLevel", .str "low"), ("releaseReadiness", .bool true),
        ("guidelines", .arr [])]) ∧
    parseAIResponse "no json here" = .ok (fallbackResponse "no json here") ∧
    (fallbackResponse "no json here").getMember "impact" = some (.str "no json here") ∧
    (fallbackResponse "no json here").getMember "riskLevel" = some (.str "medium") ∧
    (fallbackResponse "no json here").getMember "releaseReadiness" = some (.bool false) ∧
    parseAIResponse "\x7bnot valid json\x7d" = .error "Failed to parse AI analysis response" := by
  refine ⟨?_, ?_, ?_, rfl, rfl, rfl, rfl, rfl, rfl⟩
  · intro j v hj hv
    simp [parseAIResponse, hj, hv]
  · intro h
    simp [parseAIResponse, h]
  · intro j hj hp
    simp [parseAIResponse, hj, hp]

/-- C1 witness: the case analysis applied at three concrete replies, one
per case. -/
theorem parseAIResponse_case_analysis_witness :
    parseAIResponse "no json here" = .ok (fallbackResponse "no json here") ∧
    parseAIResponse "\x7b\"a\":1\x7d" = .ok (Json.obj [("a", .num "1")]) ∧
    parseAIResponse "\x7bbad\x7d" = .error "Failed to parse AI analysis response" :=
  ⟨(parseAIResponse_case_analysis "no json here").2.1 rfl,
   (parseAIResponse_case_analysis "\x7b\"a\":1\x7d").1 "\x7b\"a\":1\x7d"
     (Json.obj [("a", .num "1")]) rfl rfl,
   (parseAIResponse_case_analysis "\x7bbad\x7d").2.2.1 "\x7bbad\x7d" rfl rfl⟩

/-- C1 counterexample: the reply "\x7bnot valid json" — the claim's own
malformed-JSON example — contains no closing brace, so the regex finds no
brace-delimited substring and `parseAIResponse` returns the fallback
object successfully instead of raising the fatal parse error the claim
asserts. -/
theorem parseAIResponse_unterminated_brace_falls_back :
    parseAIResponse "\x7bnot valid json" = .ok (fallbackResponse "\x7bnot valid json") ∧
    (parseAIResponse "\x7bnot valid json").isOk = true :=
  ⟨rfl, rfl⟩

/-- C2: `calculateSprintMetrics` is pure and returns the item count, the
Done/Closed count, the Active/In-Progress count, the two work-hour sums
with missing fields counted as 0, and velocity equal to the completed-work
sum; the claim's two-item example evaluates as stated. -/
theorem calculateSprintMetrics_spec (sprint : Sprint) (workItems : List WorkItem) :
    (calculateSprintMetrics sprint workItems).totalWorkItems = workItems.length ∧
    (calculateSprintMetrics sprint workItems).completedWorkItems =
      workItems.countP (fun i => i.fields.state == some "Done" || i.fields.state == some "Closed") ∧
    (calculateSprintMetrics sprint workItems).inProgressWorkItems =
      workItems.countP (fun i => i.fields.state == some "Active" || i.fields.state == some "In Progress") ∧
    (calculateSprintMetrics sprint workItems).remainingWork =
      (workItems.map (fun i => i.fields.remainingWork.getD 0)).sum ∧
    (calculateSprintMetrics sprint workItems).completedWork =
      (workItems.map (fun i => i.fields.completedWork.getD 0)).sum ∧
    (calculateSprintMetrics sprint workItems).velocity =
      (calculateSprintMetrics sprint workItems).completedWork ∧
    (calculateSprintMetrics sprint workItems).sprintId = sprint.id ∧
    (calculateSprintMetrics sprint workItems).sprintName = sprint.name ∧
    calculateSprintMetrics ⟨"s1", "Sprint 1", "", ⟨none, none, "current"⟩⟩
      [⟨1, { state := some "Done" }⟩, ⟨2, { state := some "Active", remainingWork := some 5 }⟩] =
      ⟨"s1", "Sprint 1", 2, 1, 1, 5, 0, 0⟩ := by
  refine ⟨rfl, ?_, ?_, ?_, ?_, rfl, rfl, rfl, rfl⟩
  · simp [calculateSprintMetrics, List.countP_eq_length_filter]
  · simp [calculateSprintMetrics, List.countP_eq_length_filter]
  · simp [calculateSprintMetrics, foldl_add_getD]
  · simp [calculateSprintMetrics, foldl_add_getD]

/-- C3: both two-step fetches short-circuit on an empty first step —
`getSprintWorkItems` returns the empty list with no bulk-detail call when
every fetched reference lacks a target, and `getAllTasks` returns the
empty list with no bulk-fetch call when the query yields zero ids, while a
non-empty query leads to exactly one bulk-fetch of at most the first 200
ids. -/
theorem fetch_short_circuit (env : SprintEnv) (tenv : TaskQueryEnv) (sprintId : String) :
    (∀ refs, env.iterationWorkItems sprintId = .ok refs →
      (∀ ref ∈ refs, ref.target = none) →
      getSprintWorkItems env sprintId = (.ok [], [])) ∧
    ((tenv.wiqlWorkItemIds = .ok none ∨ tenv.wiqlWorkItemIds = .ok (some [])) →
      getAllTasks tenv = (.ok [], [])) ∧
    (∀ ids, tenv.wiqlWorkItemIds = .ok (some ids) → ids ≠ [] →
      (getAllTasks tenv).snd = [ids.take 200] ∧ (ids.take 200).length ≤ 200) := by
  refine ⟨?_, ?_, ?_⟩
  · intro refs h hnone
    have hids : refs.filterMap (fun ref => ref.target.map WorkItemTarget.id) = [] := by
      rw [List.filterMap_eq_nil_iff]
      intro a ha
      rw [hnone a ha]
      rfl
    simp [getSprintWorkItems, h, hids]
  · intro h
    rcases h with h | h <;> simp [getAllTasks, h]
  · intro ids h hne
    have hemp : ids.isEmpty = false := by simp [List.isEmpty_eq_false, hne]
    cases hd : tenv.workItemDetails (ids.take 200) <;>
      simp [getAllTasks, h, hemp, hd, List.length_take]

/-- C3 witness: the short-circuits applied at concrete environments — a
reference list whose single entry lacks a target, an empty query result,
and a three-id query result. -/
theorem fetch_short_circuit_witness :
    getSprintWorkItems ⟨.ok [], fun _ => .ok [⟨none⟩], fun _ => .ok []⟩ "sprint-1" =
      (.ok [], []) ∧
    getAllTasks ⟨.ok none, fun _ => .ok none⟩ = (.ok [], []) ∧
    (getAllTasks ⟨.ok (some [1, 2, 3]), fun _ => .ok (some [])⟩).snd = [[1, 2, 3]] :=
  ⟨(fetch_short_circuit ⟨.ok [], fun _ => .ok [⟨none⟩], fun _ => .ok []⟩
      ⟨.ok none, fun _ => .ok none⟩ "sprint-1").1 [⟨none⟩] rfl
      (fun ref h => by rw [List.mem_singleton] at h; subst h; rfl),
   (fetch_short_circuit ⟨.ok [], fun _ => .ok [⟨none⟩], fun _ => .ok []⟩
      ⟨.ok none, fun _ => .ok none⟩ "sprint-1").2.1 (Or.inl rfl),
   ((fetch_short_circuit ⟨.ok [], fun _ => .ok [⟨none⟩], fun _ => .ok []⟩
      ⟨.ok (some [1, 2, 3]), fun _ => .ok (some [])⟩ "sprint-1").2.2 [1, 2, 3] rfl
      (by decide)).1⟩

/-- C4: `getCurrentSprintMetrics` returns JS null (`.ok none`, a
non-error outcome) when no fetched sprint has time-frame "current"; when
one does, it selects the first such sprint, fetches its work items and
returns their computed metrics. -/
theorem getCurrentSprintMetrics_spec (env : SprintEnv) :
    (∀ sprints, env.iterations = .ok sprints →
      (∀ s ∈ sprints, s.attributes.timeFrame ≠ "current") →
      getCurrentSprintMetrics env = .ok none) ∧
    (∀ pre cur post, env.iterations = .ok (pre ++ cur :: post) →
      (∀ s ∈ pre, s.attributes.timeFrame ≠ "current") →
      cur.attributes.timeFrame = "current" →
      ∀ workItems, (getSprintWorkItems env cur.id).fst = .ok workItems →
      getCurrentSprintMetrics env = .ok (some (calculateSprintMetrics cur workItems))) := by
  constructor
  · intro sprints h hnone
    have hfind : sprints.find? (fun s => s.attributes.timeFrame == "current") = none := by
      rw [List.find?_eq_none]
      intro s hs h'
      exact hnone s hs (by simpa using h')
    simp [getCurrentSprintMetrics, getSprints, h, hfind]
  · intro pre cur post h hpre hcur workItems hitems
    have hfind : (pre ++ cur :: post).find? (fun s => s.attributes.timeFrame == "current") =
        some cur :=
      find?_first _ pre cur post (fun x hx => by simp [hpre x hx]) (by simp [hcur])
    simp [getCurrentSprintMetrics, getSprints, h, hfind, hitems]

/-- C4 witness: a sprint list with no current sprint yields null, and a
list whose second sprint is current yields that sprint's metrics. -/
theorem getCurrentSprintMetrics_spec_witness :
    getCurrentSprintMetrics ⟨.ok [⟨"s1", "S1", "", ⟨none, none, "past"⟩⟩],
      fun _ => .ok [], fun _ => .ok []⟩ = .ok none ∧
    getCurrentSprintMetrics ⟨.ok [⟨"s1", "S1", "", ⟨none, none, "past"⟩⟩,
        ⟨"s2", "S2", "", ⟨none, none, "current"⟩⟩], fun _ => .ok [], fun _ => .ok []⟩ =
      .ok (some (calculateSprintMetrics ⟨"s2", "S2", "", ⟨none, none, "current"⟩⟩ [])) :=
  ⟨(getCurrentSprintMetrics_spec ⟨.ok [⟨"s1", "S1", "", ⟨none, none, "past"⟩⟩],
      fun _ => .ok [], fun _ => .ok []⟩).1 [⟨"s1", "S1", "", ⟨none, none, "past"⟩⟩] rfl
      (fun s hs => by rw [List.mem_singleton] at hs; subst hs; decide),
   (getCurrentSprintMetrics_spec ⟨.ok [⟨"s1", "S1", "", ⟨none, none, "past"⟩⟩,
        ⟨"s2", "S2", "", ⟨none, none, "current"⟩⟩], fun _ => .ok [], fun _ => .ok []⟩).2
      [⟨"s1", "S1", "", ⟨none, none, "past"⟩⟩] ⟨"s2", "S2", "", ⟨none, none, "current"⟩⟩ []
      rfl (fun s hs => by rw [List.mem_singleton] at hs; subst hs; decide) rfl [] rfl⟩

/-- C5: `createWorkItem` builds its patch document in order — the title
add-operation always present and first, a description operation exactly
when a (truthy) description is supplied, then an assignee operation
exactly when an assignee is supplied — and submits it to the creation path
carrying the URL-encoded work-item type, so the "User Story" type yields
"%20" in the path and never a raw space. -/
theorem createWorkItem_spec (workItemType title : String)
    (description assignedTo : Option String) :
    (createWorkItemRequest workItemType title description assignedTo).fst.head? =
      some ⟨"add", "/fields/System.Title", title⟩ ∧
    (createWorkItemRequest workItemType title description assignedTo).fst.length =
      1 + (if jsTruthyStr description then 1 else 0) +
        (if jsTruthyStr assignedTo then 1 else 0) ∧
    (jsTruthyStr description = true →
      (createWorkItemRequest workItemType title description assignedTo).fst[1]? =
        some ⟨"add", "/fields/System.Description", description.getD ""⟩) ∧
    (jsTruthyStr assignedTo = true →
      (createWorkItemRequest workItemType title description assignedTo).fst.getLast? =
        some ⟨"add", "/fields/System.AssignedTo", assignedTo.getD ""⟩) ∧
    (jsTruthyStr description = false → jsTruthyStr assignedTo = false →
      (createWorkItemRequest workItemType title description assignedTo).fst =
        [⟨"add", "/fields/System.Title", title⟩]) ∧
    (createWorkItemRequest workItemType title description assignedTo).snd =
      "/wit/workitems/$" ++ encodeURIComponent workItemType ∧
    (createWorkItemRequest "User Story" "T" none none).snd =
      "/wit/workitems/$User%20Story" ∧
    ' ' ∉ (createWorkItemRequest "User Story" "T" none none).snd.data ∧
    (∀ env wi, env.post (createWorkItemRequest workItemType title description assignedTo).snd
        (createWorkItemRequest workItemType title description assignedTo).fst = .ok wi →
      createWorkItem env workItemType title description assignedTo = .ok wi) := by
  refine ⟨?_, ?_, ?_⟩
  · cases hd : jsTruthyStr description <;> cases ha : jsTruthyStr assignedTo <;>
      simp [createWorkItemRequest, hd, ha]
  · cases hd : jsTruthyStr description <;> cases ha : jsTruthyStr assignedTo <;>
      simp [createWorkItemRequest, hd, ha]
  refine ⟨?_, ?_, ?_, rfl, by decide, by decide, ?_⟩
  · intro hd
    cases ha : jsTruthyStr assignedTo <;> simp [createWorkItemRequest, hd, ha]
  · intro ha
    cases hd : jsTruthyStr description <;> simp [createWorkItemRequest, hd, ha]
  · intro hd ha
    simp [createWorkItemRequest, hd, ha]
  · intro env wi h
    simp [createWorkItem, h]

/-- C5 witness: the patch document for a call with description and
assignee supplied, and the submission of the built request. -/
theorem createWorkItem_spec_witness :
    (createWorkItemRequest "Task" "X" (some "d") (some "u")).fst[1]? =
      some ⟨"add", "/fields/System.Description", "d"⟩ ∧
    (createWorkItemRequest "Task" "X" (some "d") (some "u")).fst.getLast? =
      some ⟨"add", "/fields/System.AssignedTo", "u"⟩ ∧
    createWorkItem (sampleWorkItemEnv (.ok ⟨7, emptyWIFields⟩)) "Task" "X"
      (some "d") (some "u") = .ok ⟨7, emptyWIFields⟩ :=
  ⟨(createWorkItem_spec "Task" "X" (some "d") (some "u")).2.2.1 rfl,
   (createWorkItem_spec "Task" "X" (some "d") (some "u")).2.2.2.1 rfl,
   (createWorkItem_spec "Task" "X" (some "d") (some "u")).2.2.2.2.2.2.2.2
     (sampleWorkItemEnv (.ok ⟨7, emptyWIFields⟩)) ⟨7, emptyWIFields⟩ rfl⟩

/-- C6: `executeToolCall` is total and never emits a protocol-level
error: every response is a single text content block; the error flag is
either unset or true; an unknown tool name yields the unknown-tool error
block with the flag set; a missing required argument (per the registry's
required-argument list) yields an error block with the flag set; any
component failure yields the error block carrying the message with the
flag set; and a success yields a single text block holding the serialized
(reshaped) result with no flag. -/
theorem executeToolCall_spec (env : ToolEnv) (request : MCPToolCallRequest) :
    (∃ t, (executeToolCall env request).content = [⟨"text", t⟩]) ∧
    ((executeToolCall env request).isError = none ∨
      (executeToolCall env request).isError = some true) ∧
    ((∀ p ∈ MCP_TOOLS, p.fst ≠ request.name) →
      executeToolCall env request =
        ⟨[⟨"text", "Error: " ++ ("Unknown tool: " ++ request.name)⟩], some true⟩) ∧
    (∀ p ∈ MCP_TOOLS, p.fst = request.name →
      (∃ a ∈ p.snd, argProvided request.arguments a = false) →
      (executeToolCall env request).isError = some true) ∧
    (∀ m, executeToolCallResult env request = .error m →
      executeToolCall env request = ⟨[⟨"text", "Error: " ++ m⟩], some true⟩) ∧
    (∀ v, executeToolCallResult env request = .ok v →
      executeToolCall env request = ⟨[⟨"text", Json.stringify v⟩], none⟩) := by
  obtain ⟨name, args⟩ := request
  refine ⟨?_, ?_, ?_⟩
  · cases h : executeToolCallResult env ⟨name, args⟩ <;> simp [executeToolCall, h]
  · cases h : executeToolCallResult env ⟨name, args⟩ <;> simp [executeToolCall, h]
  refine ⟨?_, ?_, ?_, ?_⟩
  · intro h
    have e1 : (name == "get_sprints") = false := by
      rw [beq_eq_false_iff_ne]
      exact Ne.symm (h ("get_sprints", ([] : List String)) (by decide))
    have e2 : (name == "get_sprint_work_items") = false := by
      rw [beq_eq_false_iff_ne]
      exact Ne.symm (h ("get_sprint_work_items", ["sprintId"]) (by decide))
    have e3 : (name == "get_current_sprint_metrics") = false := by
      rw [beq_eq_false_iff_ne]
      exact Ne.symm (h ("get_current_sprint_metrics", ([] : List String)) (by decide))
    have e4 : (name == "create_work_item") = false := by
      rw [beq_eq_false_iff_ne]
      exact Ne.symm (h ("create_work_item", ["workItemType", "title"]) (by decide))
    have e5 : (name == "update_work_item") = false := by
      rw [beq_eq_false_iff_ne]
      exact Ne.symm (h ("update_work_item", ["workItemId", "updates"]) (by decide))
    have e6 : (name == "get_work_item") = false := by
      rw [beq_eq_false_iff_ne]
      exact Ne.symm (h ("get_work_item", ["workItemId"]) (by decide))
    have e7 : (name == "analyze_sprint_with_ai") = false := by
      rw [beq_eq_false_iff_ne]
      exact Ne.symm (h ("analyze_sprint_with_ai", ([] : List String)) (by decide))
    have e8 : (name == "get_all_tasks") = false := by
      rw [beq_eq_false_iff_ne]
      exact Ne.symm (h ("get_all_tasks", ([] : List String)) (by decide))
    have e9 : (name == "get_boards") = false := by
      rw [beq_eq_false_iff_ne]
      exact Ne.symm (h ("get_boards", ([] : List String)) (by decide))
    have e10 : (name == "get_board_columns") = false := by
      rw [beq_eq_false_iff_ne]
      exact Ne.symm (h ("get_board_columns", ["boardId"]) (by decide))
    simp [executeToolCall, executeToolCallResult, e1, e2, e3, e4, e5, e6, e7, e8, e9, e10]
  · intro p hp hname hmiss
    fin_cases hp
    · obtain ⟨a, ha, _⟩ := hmiss
      exact absurd ha (List.not_mem_nil a)
    · have hname' : name = "get_sprint_work_items" := hname.symm
      subst hname'
      obtain ⟨a, ha, hprov⟩ := hmiss
      simp only [List.mem_singleton] at ha
      subst ha
      simp only [argProvided] at hprov
      simp [executeToolCall, executeToolCallResult, hprov]
    · obtain ⟨a, ha, _⟩ := hmiss
      exact absurd ha (List.not_mem_nil a)
    · have hname' : name = "create_work_item" := hname.symm
      subst hname'
      obtain ⟨a, ha, hprov⟩ := hmiss
      simp only [List.mem_cons, List.mem_singleton, List.not_mem_nil, or_false] at ha
      rcases ha with rfl | rfl
      · simp only [argProvided] at hprov
        simp [executeToolCall, executeToolCallResult, hprov]
      · simp only [argProvided] at hprov
        simp [executeToolCall, executeToolCallResult, hprov]
    · have hname' : name = "update_work_item" := hname.symm
      subst hname'
      obtain ⟨a, ha, hprov⟩ := hmiss
      simp only [List.mem_cons, List.mem_singleton, List.not_mem_nil, or_false] at ha
      rcases ha with rfl | rfl
      · simp only [argProvided] at hprov
        simp [executeToolCall, executeToolCallResult, hprov]
      · simp only [argProvided] at hprov
        simp [executeToolCall, executeToolCallResult, hprov]
    · have hname' : name = "get_work_item" := hname.symm
      subst hname'
      obtain ⟨a, ha, hprov⟩ := hmiss
      simp only [List.mem_singleton] at ha
      subst ha
      simp only [argProvided] at hprov
      simp [executeToolCall, executeToolCallResult, hprov]
    · obtain ⟨a, ha, _⟩ := hmiss
      exact absurd ha (List.not_mem_nil a)
    · obtain ⟨a, ha, _⟩ := hmiss
      exact absurd ha (List.not_mem_nil a)
    · obtain ⟨a, ha, _⟩ := hmiss
      exact absurd ha (List.not_mem_nil a)
    · have hname' : name = "get_board_columns" := hname.symm
      subst hname'
      obtain ⟨a, ha, hprov⟩ := hmiss
      simp only [List.mem_singleton] at ha
      subst ha
      simp only [argProvided] at hprov
      simp [executeToolCall, executeToolCallResult, hprov]
  · intro m h
    simp [executeToolCall, h]
  · intro v h
    simp [executeToolCall, h]

/-- C6 witness: the dispatcher applied to an unknown tool, to
`get_work_item` with its required argument missing, and to a successful
`get_sprints` call. -/
theorem executeToolCall_spec_witness :
    executeToolCall (sampleToolEnv (.error "down")) ⟨"bogus_tool", {}⟩ =
      ⟨[⟨"text", "Error: " ++ ("Unknown tool: " ++ "bogus_tool")⟩], some true⟩ ∧
    (executeToolCall (sampleToolEnv (.error "down")) ⟨"get_work_item", {}⟩).isError =
      some true ∧
    executeToolCall (sampleToolEnv (.error "down")) ⟨"get_sprints", {}⟩ =
      ⟨[⟨"text", Json.stringify (.arr [])⟩], none⟩ :=
  ⟨(executeToolCall_spec (sampleToolEnv (.error "down")) ⟨"bogus_tool", {}⟩).2.2.1
     (by decide),
   (executeToolCall_spec (sampleToolEnv (.error "down")) ⟨"get_work_item", {}⟩).2.2.2.1
     ("get_work_item", ["workItemId"]) (by decide) rfl
     ⟨"workItemId", List.mem_singleton.mpr rfl, rfl⟩,
   (executeToolCall_spec (sampleToolEnv (.error "down")) ⟨"get_sprints", {}⟩).2.2.2.2.2
     (.arr []) rfl⟩

/-- C7: every REST operation route responds with the uniform envelope —
HTTP 200 and `{success:true, data, timestamp}` on success, HTTP 500 and
`{success:false, error: message, timestamp}` on any thrown error — for
all twelve operation routes, with no route differentiating the error
status code. -/
theorem rest_routes_uniform_envelope (env : RouteEnv) (ts now : Nat) (sprintId : String)
    (workItemId : Int) (workItemType title : String)
    (description assignedTo : Option String) (updates : List (String × String))
    (sprintData : SprintMetrics) (workItems : List WorkItem) (context : Option String)
    (workItem : WorkItem) (command query : String) (payload : List (String × Json)) :
    respondsUniformly (routeGetSprints env ts) (getSprints env.sprint) ts ∧
    respondsUniformly (routeGetSprintWorkItems env sprintId ts)
      (getSprintWorkItems env.sprint sprintId).fst ts ∧
    respondsUniformly (routeGetCurrentSprintMetrics env ts)
      (getCurrentSprintMetrics env.sprint) ts ∧
    respondsUniformly (routeCreateWorkItem env workItemType title description assignedTo ts)
      (createWorkItem env.workItems workItemType title description assignedTo) ts ∧
    respondsUniformly (routeGetWorkItem env workItemId ts)
      (getWorkItem env.workItems workItemId) ts ∧
    respondsUniformly (routeUpdateWorkItem env workItemId updates ts)
      (updateWorkItem env.workItems workItemId updates).snd ts ∧
    respondsUniformly (routeDeleteWorkItem env workItemId ts)
      ((deleteWorkItem env.deleteItem workItemId).map (fun _ => DeleteAck.mk true)) ts ∧
    respondsUniformly (routeAnalyzeSprint env sprintData workItems context ts)
      (analyzeSprintWithAI (env.analyzeChat sprintData workItems context)) ts ∧
    respondsUniformly (routeWorkItemRecommendations env workItem ts)
      ((getWorkItemRecommendations (env.recommendChat workItem)).map RecommendationsBody.mk) ts ∧
    respondsUniformly (routeMCPStatus env ts)
      (.ok (getMCPStatus env.mcpClient env.mcpNet).fst) ts ∧
    respondsUniformly (routeMCPCommand env command payload now ts)
      (sendMCPCommand env.mcpClient env.mcpNet command payload now).fst ts ∧
    respondsUniformly (routeMCPQuery env query now ts)
      (queryMCP env.mcpClient env.mcpNet query now).fst ts := by
  refine ⟨?_, ?_, ?_⟩
  · cases h : getSprints env.sprint <;>
      simp [respondsUniformly, routeGetSprints, createResponse, h]
  · cases h : (getSprintWorkItems env.sprint sprintId).fst <;>
      simp [respondsUniformly, routeGetSprintWorkItems, createResponse, h]
  refine ⟨?_, ?_, ?_, ?_⟩
  · cases h : getCurrentSprintMetrics env.sprint <;>
      simp [respondsUniformly, routeGetCurrentSprintMetrics, createResponse, h]
  · cases h : createWorkItem env.workItems workItemType title description assignedTo <;>
      simp [respondsUniformly, routeCreateWorkItem, createResponse, h]
  · cases h : getWorkItem env.workItems workItemId <;>
      simp [respondsUniformly, routeGetWorkItem, createResponse, h]
  refine ⟨?_, ?_, ?_, ?_⟩
  · cases h : (updateWorkItem env.workItems workItemId updates).snd <;>
      simp [respondsUniformly, routeUpdateWorkItem, createResponse, h]
  · cases h : deleteWorkItem env.deleteItem workItemId <;>
      simp [respondsUniformly, routeDeleteWorkItem, createResponse, h, Except.map]
  · cases h : analyzeSprintWithAI (env.analyzeChat sprintData workItems context) <;>
      simp [respondsUniformly, routeAnalyzeSprint, createResponse, h]
  refine ⟨?_, ?_, ?_, ?_⟩
  · cases h : getWorkItemRecommendations (env.recommendChat workItem) <;>
      simp [respondsUniformly, routeWorkItemRecommendations, createResponse, h, Except.map]
  · simp [respondsUniformly, routeMCPStatus, createResponse]
  · cases h : (sendMCPCommand env.mcpClient env.mcpNet command payload now).fst <;>
      simp [respondsUniformly, routeMCPCommand, createResponse, h]
  · cases h : (queryMCP env.mcpClient env.mcpNet query now).fst <;>
      simp [respondsUniformly, routeMCPQuery, createResponse, h]

/-- C8: when the relay was never enabled (flag off or URL not truthy), no
client exists, `getMCPStatus` returns offline without error and without a
network call, and `sendMCPCommand` / `queryMCP` fail fast with the
not-configured error before any network call. -/
theorem relay_disabled_behavior (cfg : MCPConfig) (net : MCPNet) (command query : String)
    (payload : List (String × Json)) (now : Nat)
    (h : cfg.enabled = false ∨ jsTruthyStr cfg.serverUrl = false) :
    makeMCPClient cfg = none ∧
    isMCPEnabled (makeMCPClient cfg) = false ∧
    getMCPStatus (makeMCPClient cfg) net = (⟨false, none⟩, 0) ∧
    sendMCPCommand (makeMCPClient cfg) net command payload now =
      (.error "MCP is not enabled or configured", []) ∧
    queryMCP (makeMCPClient cfg) net query now =
      (.error "MCP is not enabled or configured", []) := by
  have hc : makeMCPClient cfg = none := by
    rcases h with h | h <;> simp [makeMCPClient, h]
  exact ⟨hc, by simp [isMCPEnabled, hc], by simp [getMCPStatus, hc],
    by simp [sendMCPCommand, hc], by simp [queryMCP, hc]⟩

/-- C8 witness: the disabled-relay behavior at a concrete configuration
with the flag off and a URL configured. -/
theorem relay_disabled_behavior_witness :
    getMCPStatus (makeMCPClient ⟨false, some "http://localhost:3001"⟩)
      ⟨fun _ => .error "x", fun _ => .error "x", .error "x"⟩ = (⟨false, none⟩, 0) ∧
    sendMCPCommand (makeMCPClient ⟨false, some "http://localhost:3001"⟩)
      ⟨fun _ => .error "x", fun _ => .error "x", .error "x"⟩ "do" [] 0 =
      (.error "MCP is not enabled or configured", []) ∧
    queryMCP (makeMCPClient ⟨false, some "http://localhost:3001"⟩)
      ⟨fun _ => .error "x", fun _ => .error "x", .error "x"⟩ "q" 0 =
      (.error "MCP is not enabled or configured", []) :=
  ⟨(relay_disabled_behavior ⟨false, some "http://localhost:3001"⟩
      ⟨fun _ => .error "x", fun _ => .error "x", .error "x"⟩ "do" "q" [] 0 (Or.inl rfl)).2.2.1,
   (relay_disabled_behavior ⟨false, some "http://localhost:3001"⟩
      ⟨fun _ => .error "x", fun _ => .error "x", .error "x"⟩ "do" "q" [] 0 (Or.inl rfl)).2.2.2.1,
   (relay_disabled_behavior ⟨false, some "http://localhost:3001"⟩
      ⟨fun _ => .error "x", fun _ => .error "x", .error "x"⟩ "do" "q" [] 0 (Or.inl rfl)).2.2.2.2⟩

/-- C9: `updateWorkItemState(id, state)` is exactly
`updateWorkItem(id, {'System.State': state})`: the same invocation, hence
the identical patch request (a single replace-operation on the state
field at the item's endpoint) and the identical result. -/
theorem updateWorkItemState_is_updateWorkItem (env : WorkItemEnv) (workItemId : Int)
    (state : String) :
    updateWorkItemState env workItemId state =
      updateWorkItem env workItemId [("System.State", state)] ∧
    (updateWorkItemState env workItemId state).fst =
      PatchRequest.mk ("/wit/workitems/" ++ toString workItemId)
        [PatchOperation.mk "replace" "/fields/System.State" state] ∧
    (updateWorkItemState env workItemId state).snd =
      (updateWorkItem env workItemId [("System.State", state)]).snd :=
  ⟨rfl, rfl, rfl⟩

/-- C10 (amended): for every work item returned by the remote fetch, the
`get_work_item` reduced summary has a `description` of at most 200
characters — the first 200 characters of the remote description, or the
empty string when absent — and an `assignedTo` equal to the assignee's
display name when one is set and non-empty, with the literal "Unassigned"
when no assignee is set or the display name is the empty string. -/
theorem get_work_item_summary_fields (env : ToolEnv) (args : ToolArgs) (wi : WorkItem)
    (hid : jsTruthyInt args.workItemId = true)
    (hwi : env.workItems.getItem (args.workItemId.getD 0) = .ok wi) :
    executeToolCallResult env ⟨"get_work_item", args⟩ = .ok (reshapeGetWorkItem wi) ∧
    (reshapeGetWorkItem wi).getMember "description" =
      some (.str (jsDescription200 wi.fields.description)) ∧
    (jsDescription200 wi.fields.description).data.length ≤ 200 ∧
    (∀ d, wi.fields.description = some d →
      jsDescription200 wi.fields.description = String.mk (d.data.take 200)) ∧
    (wi.fields.description = none → jsDescription200 wi.fields.description = "") ∧
    (reshapeGetWorkItem wi).getMember "assignedTo" =
      some (.str (jsAssignedTo wi.fields.assignedTo)) ∧
    (∀ p, wi.fields.assignedTo = some p → p.displayName ≠ "" →
      jsAssignedTo wi.fields.assignedTo = p.displayName) ∧
    ((wi.fields.assignedTo = none ∨ wi.fields.assignedTo = some ⟨""⟩) →
      jsAssignedTo wi.fields.assignedTo = "Unassigned") := by
  obtain ⟨wid, t, st, wty, asg, desc, rwk, cwk⟩ := wi
  refine ⟨?_, ?_, ?_, ?_⟩
  · simp [executeToolCallResult, getWorkItem, hid, hwi]
  · cases wty <;> cases t <;> cases st <;>
      simp [reshapeGetWorkItem, Json.getMember, optMember]
  · cases desc with
    | none => simp [jsDescription200]
    | some d =>
      simp only [jsDescription200]
      calc (String.mk (d.data.take 200)).data.length = (d.data.take 200).length := rfl
        _ ≤ 200 := by rw [List.length_take]; exact min_le_left 200 d.data.length
  refine ⟨?_, ?_, ?_⟩
  · intro d hd
    rw [hd]
    exact rfl
  · intro hd
    rw [hd]
    exact rfl
  refine ⟨?_, ?_, ?_⟩
  · cases wty <;> cases t <;> cases st <;>
      simp [reshapeGetWorkItem, Json.getMember, optMember]
  · intro p hp hne
    rw [hp]
    simp [jsAssignedTo, hne]
  · intro hasg
    rcases hasg with h | h <;> rw [h] <;> rfl

/-- C10 witness: the summary for a fetched item whose description is
"hello" and whose assignee is absent. -/
theorem get_work_item_summary_fields_witness :
    executeToolCallResult (sampleToolEnv (.ok ⟨2, { description := some "hello" }⟩))
      ⟨"get_work_item", { workItemId := some 2 }⟩ =
      .ok (reshapeGetWorkItem ⟨2, { description := some "hello" }⟩) ∧
    (reshapeGetWorkItem ⟨2, { description := some "hello" }⟩).getMember "description" =
      some (.str "hello") ∧
    (reshapeGetWorkItem ⟨2, { description := some "hello" }⟩).getMember "assignedTo" =
      some (.str "Unassigned") :=
  ⟨(get_work_item_summary_fields (sampleToolEnv (.ok ⟨2, { description := some "hello" }⟩))
      { workItemId := some 2 } ⟨2, { description := some "hello" }⟩ rfl rfl).1,
   (get_work_item_summary_fields (sampleToolEnv (.ok ⟨2, { description := some "hello" }⟩))
      { workItemId := some 2 } ⟨2, { description := some "hello" }⟩ rfl rfl).2.1,
   (get_work_item_summary_fields (sampleToolEnv (.ok ⟨2, { description := some "hello" }⟩))
      { workItemId := some 2 } ⟨2, { description := some "hello" }⟩ rfl rfl).2.2.2.2.2.1⟩

/-- C10 counterexample: a work item whose assignee is set but has an empty
display name — the claim requires `assignedTo` to equal that display name
(the empty string), yet the summary carries "Unassigned". -/
theorem get_work_item_assignedTo_counterexample :
    (⟨1, { assignedTo := some ⟨""⟩ }⟩ : WorkItem).fields.assignedTo = some ⟨""⟩ ∧
    (reshapeGetWorkItem ⟨1, { assignedTo := some ⟨""⟩ }⟩).getMember "assignedTo" =
      some (.str "Unassigned") ∧
    "Unassigned" ≠ "" ∧
    executeToolCallResult (sampleToolEnv (.ok ⟨1, { assignedTo := some ⟨""⟩ }⟩))
      ⟨"get_work_item", { workItemId := some 1 }⟩ =
      .ok (reshapeGetWorkItem ⟨1, { assignedTo := some ⟨""⟩ }⟩) :=
  ⟨rfl, rfl, by decide, rfl⟩

end SprintMgr
